import Mathlib

/-!
Verification of the NLWeb demo dashboard's client-side contract layer,
typed API client and query pipeline, embedded shallowly from the
TypeScript source (shared zod schema module, `lib/api.ts`, the
`QueryInterface`, `ConfigurationPanel` and `SchemaDataPanel` components).

JSON values are modelled by an inductive type; each zod schema is
embedded as an executable parse function `Json → Option Json` returning
the parsed output object (zod's default "strip" behaviour for unknown
keys, `.passthrough()` where the source says so, `.default(...)` for
defaulted fields). Event handlers and the fetch wrapper are embedded as
pure functions on explicit state / transport-response values.
-/

/-- JSON values (numbers as rationals; the source never relies on
floating-point artifacts in the code under study). -/
inductive Json where
  | str (s : String)
  | num (q : Rat)
  | bool (b : Bool)
  | null
  | arr (elts : List Json)
  | obj (fields : List (String × Json))

namespace Json

/-- Property access `v[k]` on a JSON value: only objects have fields. -/
def getProp : Json → String → Option Json
  | .obj fs, k => (fs.find? (fun p => p.1 = k)).map (·.2)
  | _, _ => none

/-- JavaScript truthiness of a JSON value ("" and 0 and null are falsy,
arrays and objects are truthy). -/
def truthy : Json → Bool
  | .str s => s ≠ ""
  | .num q => q ≠ 0
  | .bool b => b
  | .null => false
  | .arr _ => true
  | .obj _ => true

mutual
/-- JavaScript `String(...)` coercion of a JSON value (number formatting
approximated by `Rat`'s printer; objects display as "[object Object]"). -/
def display : Json → String
  | .str s => s
  | .num q => toString q
  | .bool b => if b then "true" else "false"
  | .null => "null"
  | .arr xs => displayList xs
  | .obj _ => "[object Object]"

/-- Array `toString`: elements joined with commas. -/
def displayList : List Json → String
  | [] => ""
  | [x] => display x
  | x :: xs => display x ++ "," ++ displayList xs
end

end Json

/-! ## zod primitives, as used by the shared schema module -/

/-- `z.string()`. -/
def zString : Json → Option Json
  | .str s => some (.str s)
  | _ => none

/-- `z.string().min(n, _)`: string of length at least `n` (no trimming). -/
def zStringMin (n : Nat) : Json → Option Json
  | .str s => if n ≤ s.length then some (.str s) else none
  | _ => none

/-- `z.number()`. -/
def zNumber : Json → Option Json
  | .num q => some (.num q)
  | _ => none

/-- `z.number().min(lo).max(hi)`: inclusive range check, no clamping. -/
def zNumberRange (lo hi : Rat) : Json → Option Json
  | .num q => if lo ≤ q ∧ q ≤ hi then some (.num q) else none
  | _ => none

/-- `z.boolean()`. -/
def zBoolean : Json → Option Json
  | .bool b => some (.bool b)
  | _ => none

/-- `z.enum([...])`: a string drawn from the given options. -/
def zEnum (options : List String) : Json → Option Json
  | .str s => if s ∈ options then some (.str s) else none
  | _ => none

/-- `z.literal(lit)` for a string literal. -/
def zLiteral (lit : String) : Json → Option Json
  | .str s => if s = lit then some (.str s) else none
  | _ => none

/-- `z.any()`: accepts anything unchanged. -/
def zAny : Json → Option Json := fun v => some v

/-- `z.array(elem)`. -/
def zArray (elem : Json → Option Json) : Json → Option Json
  | .arr xs => (xs.mapM elem).map .arr
  | _ => none

/-- Field lookup inside an object's field list. -/
def getField (fs : List (String × Json)) (k : String) : Option Json :=
  (fs.find? (fun p => p.1 = k)).map (·.2)

/-- A required object field: absent or invalid fails the whole parse. -/
def reqField (fs : List (String × Json)) (k : String)
    (p : Json → Option Json) : Option (List (String × Json)) :=
  match getField fs k with
  | some v => (p v).map (fun w => [(k, w)])
  | none => none

/-- An `.optional()` field: absent is fine, present must validate. -/
def optField (fs : List (String × Json)) (k : String)
    (p : Json → Option Json) : Option (List (String × Json)) :=
  match getField fs k with
  | some v => (p v).map (fun w => [(k, w)])
  | none => some []

/-- A `.default(d)` field: absent yields the default, present must
validate. -/
def defField (fs : List (String × Json)) (k : String)
    (p : Json → Option Json) (d : Json) : Option (List (String × Json)) :=
  match getField fs k with
  | some v => (p v).map (fun w => [(k, w)])
  | none => some [(k, d)]

/-! ## Shared schema module (`@shared/schema`) -/

/-- `queryRequestSchema`: `query` is `z.string().min(1, "Query is
required")`, `mode` is `z.enum(["search","chat"]).default("search")`,
`prev` is `z.string().optional()`. Unknown keys are stripped (zod's
default object behaviour). -/
def queryRequestParse (j : Json) : Option Json :=
  match j with
  | .obj fs => do
    let q ← reqField fs "query" (zStringMin 1)
    let m ← defField fs "mode" (zEnum ["search", "chat"]) (.str "search")
    let p ← optField fs "prev" zString
    some (.obj (q ++ m ++ p))
  | _ => none

/-- `openaiConfigSchema`: `model` defaults to "gpt-4", `temperature` in
[0,1] defaults to 0.7, `max_tokens` in [1,4000] defaults to 2048,
`has_api_key` required boolean. -/
def openaiConfigParse (j : Json) : Option Json :=
  match j with
  | .obj fs => do
    let m ← defField fs "model" zString (.str "gpt-4")
    let t ← defField fs "temperature" (zNumberRange 0 1) (.num (7/10))
    let k ← defField fs "max_tokens" (zNumberRange 1 4000) (.num 2048)
    let b ← reqField fs "has_api_key" zBoolean
    some (.obj (m ++ t ++ k ++ b))
  | _ => none

/-- `nlwebConfigSchema`: host, port, vector_db, embedding_model,
mcp_enabled, all with defaults; the port is an unconstrained number. -/
def nlwebConfigParse (j : Json) : Option Json :=
  match j with
  | .obj fs => do
    let h ← defField fs "server_host" zString (.str "0.0.0.0")
    let p ← defField fs "server_port" zNumber (.num 5000)
    let v ← defField fs "vector_db" zString (.str "memory")
    let e ← defField fs "embedding_model" zString (.str "text-embedding-ada-002")
    let m ← defField fs "mcp_enabled" zBoolean (.bool true)
    some (.obj (h ++ p ++ v ++ e ++ m))
  | _ => none

/-- `errorHandlingConfigSchema`: `retry_attempts` in [1,10] default 3,
`timeout` in [5,120] default 30, `backoff_strategy` enum default
"exponential", `enable_fallback` boolean default true. -/
def errorHandlingConfigParse (j : Json) : Option Json :=
  match j with
  | .obj fs => do
    let r ← defField fs "retry_attempts" (zNumberRange 1 10) (.num 3)
    let t ← defField fs "timeout" (zNumberRange 5 120) (.num 30)
    let b ← defField fs "backoff_strategy"
      (zEnum ["exponential", "linear", "fixed"]) (.str "exponential")
    let e ← defField fs "enable_fallback" zBoolean (.bool true)
    some (.obj (r ++ t ++ b ++ e))
  | _ => none

/-- `configSchema`: the three required subsections, unknown keys
stripped. -/
def configParse (j : Json) : Option Json :=
  match j with
  | .obj fs => do
    let o ← reqField fs "openai" openaiConfigParse
    let n ← reqField fs "nlweb" nlwebConfigParse
    let e ← reqField fs "error_handling" errorHandlingConfigParse
    some (.obj (o ++ n ++ e))
  | _ => none

/-- Model of the URL validity check behind `z.string().url()` (the
WHATWG `new URL(...)` constructor): the string must start with a
non-empty scheme — a letter followed by URL scheme characters — and a
colon. -/
def urlOk (s : String) : Bool :=
  let cs := s.toList
  let scheme := cs.takeWhile (fun c => !(c = ':'))
  decide (scheme.length < cs.length) && !scheme.isEmpty &&
    (scheme.headD 'a').isAlpha &&
    scheme.all (fun c => c.isAlpha || c.isDigit || c = '+' || c = '-' || c = '.')

/-- `z.string().url()`. -/
def zStringUrl : Json → Option Json
  | .str s => if urlOk s then some (.str s) else none
  | _ => none

/-- `dataSourceSchema`: `name` string, `url` must pass URL validation,
`type` enum, `description` optional, `status` enum default "inactive",
`object_count` number default 0, `last_updated` optional number,
`error` optional string. -/
def dataSourceParse (j : Json) : Option Json :=
  match j with
  | .obj fs => do
    let n ← reqField fs "name" zString
    let u ← reqField fs "url" zStringUrl
    let t ← reqField fs "type" (zEnum ["schema_org", "rss"])
    let d ← optField fs "description" zString
    let s ← defField fs "status"
      (zEnum ["active", "inactive", "syncing", "error"]) (.str "inactive")
    let c ← defField fs "object_count" zNumber (.num 0)
    let l ← optField fs "last_updated" zNumber
    let e ← optField fs "error" zString
    some (.obj (n ++ u ++ t ++ d ++ s ++ c ++ l ++ e))
  | _ => none

/-- The keys `schemaOrgObjectSchema` declares explicitly. -/
def schemaOrgKnownKeys : List String :=
  ["@type", "@context", "name", "description", "url", "address",
   "aggregateRating", "priceRange", "servesCuisine", "amenityFeature"]

/-- `schemaOrgObjectSchema`: required `@type` string, a handful of
optional known fields, and `.passthrough()` — every unknown field of the
input is kept unchanged on the output. -/
def schemaOrgObjectParse (j : Json) : Option Json :=
  match j with
  | .obj fs => do
    let t ← reqField fs "@type" zString
    let c ← optField fs "@context" zString
    let n ← optField fs "name" zString
    let d ← optField fs "description" zString
    let u ← optField fs "url" zString
    let a ← optField fs "address" zAny
    let g ← optField fs "aggregateRating" zAny
    let p ← optField fs "priceRange" zString
    let s ← optField fs "servesCuisine" zString
    let m ← optField fs "amenityFeature" (zArray zAny)
    some (.obj (t ++ c ++ n ++ d ++ u ++ a ++ g ++ p ++ s ++ m ++
      fs.filter (fun f => f.1 ∉ schemaOrgKnownKeys)))
  | _ => none

/-- `searchResponseSchema`: `"@type"` must be the literal
"SearchResultsPage"; `mainEntity` is an array of Schema.org objects;
`query`, `numberOfItems` and `processingTime` are required; the rest is
optional (the `usage` sub-object is modelled as `zAny` since no claim
depends on its inner fields; it is optional in the source). -/
def searchResponseParse (j : Json) : Option Json :=
  match j with
  | .obj fs => do
    let c ← optField fs "@context" zString
    let t ← reqField fs "@type" (zLiteral "SearchResultsPage")
    let m ← reqField fs "mainEntity" (zArray schemaOrgObjectParse)
    let q ← reqField fs "query" zString
    let n ← reqField fs "numberOfItems" zNumber
    let p ← reqField fs "processingTime" zNumber
    let s ← optField fs "source" zString
    let a ← optField fs "aiResponse" zString
    let u ← optField fs "usage" zAny
    let x ← optField fs "context" zString
    let g ← optField fs "message" zString
    some (.obj (c ++ t ++ m ++ q ++ n ++ p ++ s ++ a ++ u ++ x ++ g))
  | _ => none

/-! ## Typed client (`lib/api.ts`) -/

/-- The transport outcome seen by `apiRequest` after `fetch` resolves:
the `ok` flag, the numeric status, the status text, and the JSON parse
of the body (`none` when `response.json()` rejects). -/
structure TransportResponse where
  ok : Bool
  status : Nat
  statusText : String
  jsonBody : Option Json

/-- Outcome of an `apiRequest` call: the resolved body, a thrown
`ApiError` (its `status` and `message` fields), the rejection of
`response.json()` on the success path, or the unstructured `TypeError`
thrown by the property access `error.error` when the error body parses
to JSON `null` (the `.catch` guards only parse rejection, not a null
body). -/
inductive ApiResult where
  | success (body : Json)
  | apiError (status : Nat) (message : String)
  | jsonRejection
  | nullBodyTypeError

/-- The error body on the non-ok path:
`await response.json().catch(() => (\x7b error: response.statusText \x7d))`. -/
def errorBodyOf (resp : TransportResponse) : Json :=
  match resp.jsonBody with
  | some v => v
  | none => .obj [("error", .str resp.statusText)]

/-- JavaScript `body.k` read as a truthy message: the field, when
present and truthy, coerced to a string. -/
def truthyFieldMessage (body : Json) (k : String) : Option String :=
  match body.getProp k with
  | some v => if v.truthy then some v.display else none
  | none => none

/-- `error.error || error.message || "API request failed"` from
`apiRequest`'s throw site. -/
def errorMessageOf (resp : TransportResponse) : String :=
  match truthyFieldMessage (errorBodyOf resp) "error" with
  | some m => m
  | none =>
    match truthyFieldMessage (errorBodyOf resp) "message" with
    | some m => m
    | none => "API request failed"

/-- `apiRequest`: on `ok` it returns `response.json()` with no schema
validation of the body; on non-ok it throws
`new ApiError(response.status, ...)` with the fallback message chain. -/
def apiRequest (resp : TransportResponse) : ApiResult :=
  if resp.ok then
    match resp.jsonBody with
    | some v => .success v
    | none => .jsonRejection
  else
    match errorBodyOf resp with
    | .null => .nullBodyTypeError
    | _ => .apiError resp.status (errorMessageOf resp)

/-- `api.getConfig`: a bare `apiRequest` to `/config`; the `Config`
type parameter is a compile-time cast only, no runtime parse. -/
def getConfig (resp : TransportResponse) : ApiResult :=
  apiRequest resp

/-! ## Query pipeline (`QueryInterface`, src/unnamed/part_002) -/

/-- JavaScript `String.prototype.trim()`: strips whitespace from both
ends of the string. -/
def jsTrim (s : String) : String :=
  ⟨((s.toList.dropWhile Char.isWhitespace).reverse.dropWhile
      Char.isWhitespace).reverse⟩

/-- What `handleSubmit` does with the textarea contents. -/
inductive SubmitAction where
  | toastRequired
  | mutate (request : Json)

/-- `handleSubmit`: toasts and stops when `query.trim()` is empty,
otherwise mutates with the trimmed query and mode "search". -/
def handleSubmit (query : String) : SubmitAction :=
  if jsTrim query = "" then .toastRequired
  else .mutate (.obj [("query", .str (jsTrim query)), ("mode", .str "search")])

/-- The component's transient state: the `results` useState slot and
the mutation's pending flag. -/
structure QIState where
  results : Option Json
  isPending : Bool

/-- Starting a mutation (inside `handleSubmit`): a non-empty trimmed
query sets the pending flag; the `results` slot is not touched. -/
def submitEvent (query : String) (st : QIState) : QIState :=
  if jsTrim query = "" then st else { st with isPending := true }

/-- `onSuccess`: `setResults(data)` and the request settles. -/
def successEvent (data : Json) (_st : QIState) : QIState :=
  { results := some data, isPending := false }

/-- `onError`: only a toast; `results` is left as it was. -/
def errorEvent (st : QIState) : QIState :=
  { st with isPending := false }

/-- The results panel renders stored results only when no request is
pending: `results && !queryMutation.isPending`. -/
def displayedResults (st : QIState) : Option Json :=
  if st.isPending then none else st.results

/-- The submit button's `disabled` condition:
`queryMutation.isPending`. -/
def submitDisabled (st : QIState) : Bool :=
  st.isPending

/-- The `onSuccess` update applied to the `results` slot when one
mutation's response resolves: it stores the response unconditionally,
with no check of which submission it belongs to. -/
def onSuccessUpdate (_current : Option Json) (data : Json) : Option Json :=
  some data

/-! ## Data sources panel (`SchemaDataPanel`) -/

/-- The add-source dialog's form state. -/
structure NewSource where
  name : String
  url : String
  type : String
  description : String

/-- What `handleAddSource` does with the form. -/
inductive AddSourceAction where
  | toastMissing
  | networkRequest (payload : Json)

/-- The JSON payload `addSourceMutation.mutate(newSource)` sends. -/
def addSourcePayload (s : NewSource) : Json :=
  .obj [("name", .str s.name), ("url", .str s.url),
        ("type", .str s.type), ("description", .str s.description)]

/-- `handleAddSource`: toasts and stops when the name or the url is the
empty string (JavaScript falsiness of `!newSource.name ||
!newSource.url`); any other form is posted to `/data-sources`
unvalidated. -/
def handleAddSource (s : NewSource) : AddSourceAction :=
  if s.name = "" ∨ s.url = "" then .toastMissing
  else .networkRequest (addSourcePayload s)

/-- Whether the handler issued a network request. -/
def issuesNetwork : AddSourceAction → Bool
  | .toastMissing => false
  | .networkRequest _ => true

/-! ## Configuration panel (`ConfigurationPanel`) -/

/-- The panel's `Config` state, one slot per subsection. -/
structure PanelConfig where
  openai : Json
  nlweb : Json
  error_handling : Json

/-- The `keyof Config` argument of `handleSave`. -/
inductive ConfigSection where
  | openai
  | nlweb
  | error_handling

/-- The JSON key of a subsection. -/
def sectionKey : ConfigSection → String
  | .openai => "openai"
  | .nlweb => "nlweb"
  | .error_handling => "error_handling"

/-- The subsection's current value in the panel state. -/
def sectionValue : ConfigSection → PanelConfig → Json
  | .openai, c => c.openai
  | .nlweb, c => c.nlweb
  | .error_handling, c => c.error_handling

/-- `handleSave(section)`: mutates with the one-key object
`\x7b [section]: config[section] \x7d`. -/
def handleSave (sec : ConfigSection) (config : PanelConfig) : Json :=
  .obj [(sectionKey sec, sectionValue sec config)]

/-- Modelled from the spec: the server-side POST `/config` handler is
not under src/ (the Flask backend is outside this repository slice).
The spec says the request is a Partial Config and that each subsection
"is saved atomically and independently of the others", so the handler
replaces exactly the subsections present in the request and leaves the
rest of the stored configuration unchanged. -/
def serverUpdateConfig (stored : PanelConfig) (request : Json) : PanelConfig :=
  { openai := (request.getProp "openai").getD stored.openai,
    nlweb := (request.getProp "nlweb").getD stored.nlweb,
    error_handling := (request.getProp "error_handling").getD stored.error_handling }

/-! ## Helper lemmas -/

/-- A string is non-empty exactly when its length is at least one. -/
theorem string_ne_empty_iff {s : String} : s ≠ "" ↔ 1 ≤ s.length := by
  rw [Nat.one_le_iff_ne_zero]
  constructor
  · intro h h0
    exact h (by
      cases s with
      | mk data => simp [String.length] at h0; simp [h0])
  · intro h hs
    subst hs
    exact h rfl

/-- Unfolding a successful required-field parse. -/
theorem reqField_some {fs : List (String × Json)} {k : String}
    {p : Json → Option Json} {part : List (String × Json)}
    (h : reqField fs k p = some part) :
    ∃ v w, getField fs k = some v ∧ p v = some w ∧ part = [(k, w)] := by
  unfold reqField at h
  cases hg : getField fs k with
  | none => rw [hg] at h; cases h
  | some v =>
    rw [hg] at h
    rw [Option.map_eq_some'] at h
    obtain ⟨w, hw, hpart⟩ := h
    exact ⟨v, w, rfl, hw, hpart.symm⟩

/-- A successful defaulted-field parse produces exactly the one key. -/
theorem defField_some {fs : List (String × Json)} {k : String}
    {p : Json → Option Json} {d : Json} {part : List (String × Json)}
    (h : defField fs k p d = some part) :
    ∃ w, part = [(k, w)] := by
  unfold defField at h
  cases hg : getField fs k with
  | none => rw [hg] at h; exact ⟨d, (Option.some.injEq _ _ ▸ h).symm⟩
  | some v =>
    rw [hg, Option.map_eq_some'] at h
    obtain ⟨w, _, hpart⟩ := h
    exact ⟨w, hpart.symm⟩

/-- A successful optional-field parse is empty or exactly the one key. -/
theorem optField_some {fs : List (String × Json)} {k : String}
    {p : Json → Option Json} {part : List (String × Json)}
    (h : optField fs k p = some part) :
    part = [] ∨ ∃ w, part = [(k, w)] := by
  unfold optField at h
  cases hg : getField fs k with
  | none => rw [hg] at h; exact Or.inl (Option.some.injEq _ _ ▸ h).symm
  | some v =>
    rw [hg, Option.map_eq_some'] at h
    obtain ⟨w, _, hpart⟩ := h
    exact Or.inr ⟨w, hpart.symm⟩

/-- A string literal schema only accepts that literal. -/
theorem zLiteral_some {lit : String} {v w : Json}
    (h : zLiteral lit v = some w) : v = Json.str lit := by
  cases v with
  | str s =>
    simp only [zLiteral] at h
    split at h
    · next hs => exact congrArg Json.str hs
    · cases h
  | num q => cases h
  | bool b => cases h
  | null => cases h
  | arr xs => cases h
  | obj fs => cases h

/-- A successful Schema.org object parse: the output is the parsed
known fields followed by every input field whose key the schema does
not declare, kept unchanged. -/
theorem schemaOrgParse_shape {fs : List (String × Json)} {out : Json}
    (h : schemaOrgObjectParse (Json.obj fs) = some out) :
    ∃ known, out = Json.obj (known ++ fs.filter (fun f => f.1 ∉ schemaOrgKnownKeys)) := by
  simp only [schemaOrgObjectParse, Option.bind_eq_bind, Option.bind_eq_some,
    Option.some.injEq] at h
  obtain ⟨t, ht, c, hc, n, hn, d, hd, u, hu, a, ha, g, hg, p, hp, s, hs, m, hm, hout⟩ := h
  exact ⟨t ++ c ++ n ++ d ++ u ++ a ++ g ++ p ++ s ++ m, hout.symm⟩

/-! ## Claim theorems -/

/-- C1 counterexample: a whitespace-only query (the single space) is
accepted by `queryRequestSchema`, refuting "every query that consists
only of whitespace fails validation". -/
theorem c1_whitespace_query_validates :
    (queryRequestParse (Json.obj [("query", Json.str " ")])).isSome = true := rfl

/-- C1 (amended): `queryRequestSchema` accepts exactly the queries of
length at least one — no trimming happens at the schema; the
whitespace-only rejection lives in `handleSubmit`, which refuses to
submit when the trimmed query is empty and otherwise submits the
trimmed query (so every submitted request has a non-empty trimmed
query). -/
theorem c1_query_min_length_and_trim_guard :
    (∀ s : String,
      (queryRequestParse (Json.obj [("query", Json.str s)])).isSome = true ↔ s ≠ "") ∧
    (∀ q : String,
      handleSubmit q = SubmitAction.mutate
        (Json.obj [("query", Json.str (jsTrim q)), ("mode", Json.str "search")]) ↔
        jsTrim q ≠ "") := by
  constructor
  · intro s
    rw [string_ne_empty_iff]
    simp [queryRequestParse, reqField, defField, optField, getField, zStringMin, List.find?]
    by_cases hl : 1 ≤ s.length <;> simp [hl]
  · intro q
    constructor
    · intro h hq
      rw [handleSubmit, if_pos hq] at h
      cases h
    · intro hq
      rw [handleSubmit, if_neg hq]

/-- C1 witness: a one-letter query validates, and "hi" is such. -/
theorem c1_witness :
    (queryRequestParse (Json.obj [("query", Json.str "hi")])).isSome = true :=
  (c1_query_min_length_and_trim_guard.1 "hi").mpr (by decide)

/-- C2 counterexample: submitting the form with url "not-a-url" issues
a network request even though that string fails the URL syntax check of
`dataSourceSchema` — no URL validation runs before the call. -/
theorem c2_invalid_url_reaches_network :
    issuesNetwork (handleAddSource ⟨"My Website", "not-a-url", "schema_org", ""⟩) = true ∧
    urlOk "not-a-url" = false ∧
    (dataSourceParse (addSourcePayload ⟨"My Website", "not-a-url", "schema_org", ""⟩)).isSome
      = false :=
  ⟨rfl, by decide, by decide⟩

/-- C2 (amended): the only validation `handleAddSource` performs before
the network call is that `name` and `url` are non-empty strings; any
form with both non-empty — syntactically valid URL or not — is posted
to `/data-sources`. -/
theorem c2_addSource_guard :
    ∀ s : NewSource, issuesNetwork (handleAddSource s) = true ↔ (s.name ≠ "" ∧ s.url ≠ "") := by
  intro s
  constructor
  · intro h
    by_contra hc
    rw [not_and_or, not_ne_iff, not_ne_iff] at hc
    rw [handleAddSource, if_pos hc] at h
    simp [issuesNetwork] at h
  · intro ⟨h1, h2⟩
    rw [handleAddSource, if_neg (by tauto)]
    rfl

/-- C2 witness: a fully valid form also reaches the network. -/
theorem c2_witness :
    issuesNetwork (handleAddSource ⟨"My Website", "https://example.com", "schema_org", ""⟩)
      = true :=
  (c2_addSource_guard ⟨"My Website", "https://example.com", "schema_org", ""⟩).mpr (by decide)

/-- C3 counterexample: a 2xx `/config` response whose body is the empty
object — rejected by `configSchema` — is returned by `getConfig` as a
success, with no `ParseError` and no `Failed` state. -/
theorem c3_malformed_config_passes_through :
    getConfig ⟨true, 200, "OK", some (Json.obj [])⟩ = ApiResult.success (Json.obj []) ∧
    (configParse (Json.obj [])).isSome = false := ⟨rfl, rfl⟩

/-- C3 (amended): `getConfig` performs no runtime validation of the
response: any JSON body of a success transport outcome is passed
through unchanged as the call's result. (The claim's no-silent-default
half does hold: nothing is substituted.) -/
theorem c3_getConfig_no_validation :
    ∀ (resp : TransportResponse) (v : Json),
      resp.ok = true → resp.jsonBody = some v → getConfig resp = ApiResult.success v := by
  intro resp v hok hbody
  unfold getConfig apiRequest
  rw [hbody]
  simp [hok]

/-- C3 witness: at a concrete success response. -/
theorem c3_witness :
    getConfig ⟨true, 200, "OK", some Json.null⟩ = ApiResult.success Json.null :=
  c3_getConfig_no_validation ⟨true, 200, "OK", some Json.null⟩ Json.null rfl rfl

/-- C4 counterexample: after a successful first query, submitting a
second query does not clear the stored results, and when the second
fetch fails the first submission's results are displayed again in the
Failed state. -/
theorem c4_stale_results_in_failed_state :
    displayedResults (errorEvent (submitEvent "second query"
      (successEvent (Json.str "first result")
        (submitEvent "first query" ⟨none, false⟩)))) = some (Json.str "first result") ∧
    (submitEvent "second query" (successEvent (Json.str "first result")
      (submitEvent "first query" ⟨none, false⟩))).results = some (Json.str "first result") :=
  ⟨rfl, rfl⟩

/-- C4 (amended): entering Submitting keeps the prior results in state;
the render guard hides them while the request is pending (so nothing
stale is displayed during the fetch), but a failure of the new fetch
makes the earlier submission's results visible again. -/
theorem c4_submit_hides_but_keeps_results :
    ∀ (st : QIState) (q : String), jsTrim q ≠ "" →
      (submitEvent q st).results = st.results ∧
      displayedResults (submitEvent q st) = none ∧
      displayedResults (errorEvent (submitEvent q st)) = st.results := by
  intro st q hq
  simp [submitEvent, displayedResults, errorEvent, hq]

/-- C4 witness: at a concrete state holding results and query "x". -/
theorem c4_witness :
    (submitEvent "x" ⟨some (Json.str "r"), false⟩).results = some (Json.str "r") ∧
    displayedResults (submitEvent "x" ⟨some (Json.str "r"), false⟩) = none ∧
    displayedResults (errorEvent (submitEvent "x" ⟨some (Json.str "r"), false⟩))
      = some (Json.str "r") :=
  c4_submit_hides_but_keeps_results ⟨some (Json.str "r"), false⟩ "x" (by decide)

/-- C5 counterexample: with submissions A then B whose responses
resolve in the order B then A, the unconditional `setResults` in
`onSuccess` leaves the first (superseded) submission's result as the
final state — the opposite of what the claim requires. -/
theorem c5_stale_response_overwrites :
    List.foldl onSuccessUpdate none [Json.str "result of B", Json.str "result of A"] =
      some (Json.str "result of A") ∧
    Json.str "result of A" ≠ Json.str "result of B" :=
  ⟨rfl, by simp⟩

/-- C5 (amended): the completion handler has no stale-response guard —
whatever response resolves last becomes the stored result, regardless
of submission order; overlapping requests are prevented only
operationally, by disabling the submit button while a request is
pending. -/
theorem c5_last_resolution_wins :
    (∀ (init : Option Json) (earlier : List Json) (last : Json),
      List.foldl onSuccessUpdate init (earlier ++ [last]) = some last) ∧
    (∀ st : QIState, st.isPending = true → submitDisabled st = true) := by
  constructor
  · intro init earlier last
    rw [List.foldl_append]
    rfl
  · intro st h
    exact h

/-- C5 witness: at a singleton resolution list and a pending state. -/
theorem c5_witness :
    List.foldl onSuccessUpdate none ([] ++ [Json.null]) = some Json.null ∧
    submitDisabled ⟨none, true⟩ = true :=
  ⟨c5_last_resolution_wins.1 none [] Json.null,
   c5_last_resolution_wins.2 ⟨none, true⟩ rfl⟩

/-- C6 counterexample: a valid `Config` (and a valid `QueryRequest`)
carrying an extra unknown field still validates — zod's default object
behaviour strips unknown keys instead of rejecting them. -/
theorem c6_unknown_fields_stripped_not_rejected :
    (configParse (Json.obj [
      ("openai", Json.obj [("has_api_key", Json.bool true)]),
      ("nlweb", Json.obj []),
      ("error_handling", Json.obj []),
      ("unknown_field", Json.str "surprise")])).isSome = true ∧
    (queryRequestParse (Json.obj [("query", Json.str "hi"),
      ("unknown_field", Json.num 1)])).isSome = true := ⟨rfl, rfl⟩

/-- C6 (amended): `schemaOrgObjectSchema` (passthrough) preserves every
unknown input field unchanged on its output, while `configSchema` and
`queryRequestSchema` silently strip unknown fields — their outputs
carry only declared keys, and inputs with extra fields succeed rather
than fail. -/
theorem c6_passthrough_vs_strip :
    (∀ (fs : List (String × Json)) (out : Json),
      schemaOrgObjectParse (Json.obj fs) = some out →
      ∀ k v, (k, v) ∈ fs → k ∉ schemaOrgKnownKeys →
        ∃ gs, out = Json.obj gs ∧ (k, v) ∈ gs) ∧
    (∀ (j out : Json), configParse j = some out →
      ∃ gs, out = Json.obj gs ∧
        ∀ k v, (k, v) ∈ gs → k ∈ (["openai", "nlweb", "error_handling"] : List String)) ∧
    (∀ (j out : Json), queryRequestParse j = some out →
      ∃ gs, out = Json.obj gs ∧
        ∀ k v, (k, v) ∈ gs → k ∈ (["query", "mode", "prev"] : List String)) := by
  refine ⟨?_, ?_, ?_⟩
  · intro fs out h k v hmem hk
    obtain ⟨known, hshape⟩ := schemaOrgParse_shape h
    refine ⟨known ++ fs.filter (fun f => f.1 ∉ schemaOrgKnownKeys), hshape, ?_⟩
    apply List.mem_append_right
    simp [List.mem_filter, hmem, hk]
  · intro j out h
    cases j with
    | obj fs =>
      simp only [configParse, Option.bind_eq_bind, Option.bind_eq_some,
        Option.some.injEq] at h
      obtain ⟨o, ho, n, hn, e, he, hout⟩ := h
      obtain ⟨_, w1, _, _, ho'⟩ := reqField_some ho
      obtain ⟨_, w2, _, _, hn'⟩ := reqField_some hn
      obtain ⟨_, w3, _, _, he'⟩ := reqField_some he
      subst ho' hn' he'
      exact ⟨_, hout.symm, by intro k v hkv; simp at hkv; rcases hkv with h | h | h <;>
        simp [h.1]⟩
    | str s => simp [configParse] at h
    | num q => simp [configParse] at h
    | bool b => simp [configParse] at h
    | null => simp [configParse] at h
    | arr xs => simp [configParse] at h
  · intro j out h
    cases j with
    | obj fs =>
      simp only [queryRequestParse, Option.bind_eq_bind, Option.bind_eq_some,
        Option.some.injEq] at h
      obtain ⟨q, hq, m, hm, p, hp, hout⟩ := h
      obtain ⟨_, w1, _, _, hq'⟩ := reqField_some hq
      obtain ⟨w2, hm'⟩ := defField_some hm
      subst hq' hm'
      rcases optField_some hp with hp' | ⟨w3, hp'⟩ <;> subst hp'
      · exact ⟨_, hout.symm, by intro k v hkv; simp at hkv; rcases hkv with h | h <;>
          simp [h.1]⟩
      · exact ⟨_, hout.symm, by intro k v hkv; simp at hkv; rcases hkv with h | h | h <;>
          simp [h.1]⟩
    | str s => simp [queryRequestParse] at h
    | num q => simp [queryRequestParse] at h
    | bool b => simp [queryRequestParse] at h
    | null => simp [queryRequestParse] at h
    | arr xs => simp [queryRequestParse] at h

/-- C6 witness: the unknown field "weird" of a Schema.org object
survives parsing unchanged. -/
theorem c6_witness :
    ∃ gs, Json.obj [("@type", Json.str "Restaurant"), ("weird", Json.num 5)] = Json.obj gs ∧
      ("weird", Json.num 5) ∈ gs :=
  c6_passthrough_vs_strip.1 [("@type", Json.str "Restaurant"), ("weird", Json.num 5)]
    (Json.obj [("@type", Json.str "Restaurant"), ("weird", Json.num 5)]) rfl
    "weird" (Json.num 5) (by simp) (by decide)

/-- C7: evaluation at the failing input. A non-ok response whose body
parses to JSON `null` slips past the `.catch` (which only guards parse
rejection); the property access `error.error` then throws an
unstructured `TypeError` instead of the claimed `ApiError`. -/
theorem c7_null_error_body_typeerror :
    apiRequest ⟨false, 500, "Internal Server Error", some Json.null⟩ =
      ApiResult.nullBodyTypeError := rfl

/-- C8: range validation of the numeric config fields — with the other
fields well-formed, `openaiConfigSchema` validates exactly when
`temperature` lies in [0,1] and `max_tokens` in [1,4000], and
`errorHandlingConfigSchema` validates exactly when `retry_attempts`
lies in [1,10] and `timeout` in [5,120]; out-of-range values fail
instead of being clamped. -/
theorem c8_numeric_range_validation :
    (∀ (m : String) (t k : Rat) (b : Bool),
      (openaiConfigParse (Json.obj [("model", Json.str m), ("temperature", Json.num t),
        ("max_tokens", Json.num k), ("has_api_key", Json.bool b)])).isSome = true ↔
        (0 ≤ t ∧ t ≤ 1 ∧ 1 ≤ k ∧ k ≤ 4000)) ∧
    (∀ (r t : Rat) (e : Bool),
      (errorHandlingConfigParse (Json.obj [("retry_attempts", Json.num r),
        ("timeout", Json.num t), ("backoff_strategy", Json.str "exponential"),
        ("enable_fallback", Json.bool e)])).isSome = true ↔
        (1 ≤ r ∧ r ≤ 10 ∧ 5 ≤ t ∧ t ≤ 120)) := by
  constructor
  · intro m t k b
    by_cases h1 : (0:Rat) ≤ t ∧ t ≤ 1 <;>
      by_cases h2 : (1:Rat) ≤ k ∧ k ≤ 4000 <;>
        simp [openaiConfigParse, defField, reqField, getField, zString, zNumberRange,
          zBoolean, List.find?, h1, h2]
  · intro r t e
    by_cases h1 : (1:Rat) ≤ r ∧ r ≤ 10 <;>
      by_cases h2 : (5:Rat) ≤ t ∧ t ≤ 120 <;>
        simp [errorHandlingConfigParse, defField, reqField, getField, zEnum, zNumberRange,
          zBoolean, List.find?, h1, h2]

/-- C8 witness: the default-like in-range values validate. -/
theorem c8_witness :
    (openaiConfigParse (Json.obj [("model", Json.str "gpt-4"),
      ("temperature", Json.num (7/10)), ("max_tokens", Json.num 2048),
      ("has_api_key", Json.bool true)])).isSome = true :=
  (c8_numeric_range_validation.1 "gpt-4" (7/10) 2048 true).mpr (by norm_num)

/-- C9: saving the openai section alone produces a request carrying
only the "openai" key, and the (spec-modelled) server-side partial
update leaves the stored nlweb and error_handling subsections
unchanged while replacing openai. -/
theorem c9_save_openai_preserves_other_sections :
    ∀ (stored current : PanelConfig),
      handleSave ConfigSection.openai current = Json.obj [("openai", current.openai)] ∧
      (serverUpdateConfig stored (handleSave ConfigSection.openai current)).nlweb
        = stored.nlweb ∧
      (serverUpdateConfig stored (handleSave ConfigSection.openai current)).error_handling
        = stored.error_handling ∧
      (serverUpdateConfig stored (handleSave ConfigSection.openai current)).openai
        = current.openai := by
  intro stored current
  exact ⟨rfl, rfl, rfl, rfl⟩

/-- C10: `searchResponseSchema` accepts an input only when its "@type"
field is present and is exactly the literal string
"SearchResultsPage". -/
theorem c10_searchResponse_requires_type_literal :
    ∀ j : Json, (searchResponseParse j).isSome = true →
      j.getProp "@type" = some (Json.str "SearchResultsPage") := by
  intro j h
  rw [Option.isSome_iff_exists] at h
  obtain ⟨out, hout⟩ := h
  cases j with
  | obj fs =>
    simp only [searchResponseParse, Option.bind_eq_bind, Option.bind_eq_some] at hout
    obtain ⟨c, hc, t, ht, _⟩ := hout
    obtain ⟨v, w, hg, hlit, _⟩ := reqField_some ht
    have hv := zLiteral_some hlit
    subst hv
    simpa [Json.getProp, getField] using hg
  | str s => simp [searchResponseParse] at hout
  | num q => simp [searchResponseParse] at hout
  | bool b => simp [searchResponseParse] at hout
  | null => simp [searchResponseParse] at hout
  | arr xs => simp [searchResponseParse] at hout

/-- C10 witness: a minimal well-formed search response, whose "@type"
is the required literal. -/
theorem c10_witness :
    (Json.obj [("@type", Json.str "SearchResultsPage"), ("mainEntity", Json.arr []),
      ("query", Json.str "q"), ("numberOfItems", Json.num 0),
      ("processingTime", Json.num 0)]).getProp "@type" = some (Json.str "SearchResultsPage") :=
  c10_searchResponse_requires_type_literal _ rfl
